import Mathlib

set_option maxRecDepth 20000

/-
Shallow embedding of the SEO/GEO analyzer's analysis and scoring engine
(backend `analysis/` modules plus the technical-detector utilities), together
with proofs about its scoring, caching, fetching and duplicate-detection
behaviour.

Conventions of the embedding:
- JavaScript numbers are modelled as rationals (`ℚ`); the scoring code only
  produces finite decimal values, `Number.isNaN` guards are vacuous on `ℚ`.
- JavaScript strings are modelled as Lean `String`s; the JS string operations
  used by the source (`trim`, `toLowerCase`, `split`, `startsWith`,
  `includes`) are re-implemented below as structural functions on the
  character list so that they evaluate inside the kernel.
- Fallible operations return `Option`; external effects (HTTP fetches, URL
  resolution per WHATWG, SHA-1 digests) are passed in as explicit function
  parameters so every embedded function is a pure function of its inputs.
-/

/-! ## JS string primitives -/

/-- The characters matched by the JS regex class `\s` (ASCII part); used by
`String.prototype.trim` and the `\s*` in directive splitting. -/
def isJsWs (c : Char) : Bool :=
  c = ' ' ∨ c = '\t' ∨ c = '\n' ∨ c = '\r' ∨ c = '\x0b' ∨ c = '\x0c'

/-- JS `String.prototype.trim`: strip leading and trailing whitespace. -/
def jsTrim (s : String) : String :=
  String.mk (((s.data.dropWhile isJsWs).reverse.dropWhile isJsWs).reverse)

/-- ASCII lower-casing of one character, as done by `toLowerCase` on the
ASCII inputs that occur in headers, schemes and directives. -/
def jsCharLower (c : Char) : Char :=
  if 'A' ≤ c ∧ c ≤ 'Z' then Char.ofNat (c.toNat + 32) else c

/-- JS `String.prototype.toLowerCase` (ASCII fragment). -/
def jsToLower (s : String) : String := String.mk (s.data.map jsCharLower)

/-- Does the character list start with the given pattern? -/
def listStarts : List Char → List Char → Bool
  | [], _ => true
  | _ :: _, [] => false
  | p :: ps, c :: cs => p = c && listStarts ps cs

/-- JS `String.prototype.startsWith` (also used for anchored regexes such as
`/^sitemap:/i` after lower-casing). -/
def strStarts (s pre : String) : Bool := listStarts pre.data s.data

/-- Does the character list contain the pattern as a contiguous sublist? -/
def listHasSub : List Char → List Char → Bool
  | pat, [] => listStarts pat []
  | pat, c :: rest => listStarts pat (c :: rest) || listHasSub pat rest

/-- JS `String.prototype.includes` / unanchored literal regex test. -/
def strHasSub (s pat : String) : Bool := listHasSub pat.data s.data

/-- Helper for `splitChar`: accumulate the current (reversed) token. -/
def splitCharAux (sep : Char) (acc : List Char) : List Char → List String
  | [] => [String.mk acc.reverse]
  | c :: rest =>
    if c = sep then String.mk acc.reverse :: splitCharAux sep [] rest
    else splitCharAux sep (c :: acc) rest

/-- JS `String.prototype.split` with a one-character separator, e.g. the
`line.split(":")` used on robots.txt lines. -/
def splitChar (sep : Char) (s : String) : List String := splitCharAux sep [] s.data

/-- Helper for `splitLines`: split at each `\n`, dropping one `\r` directly
before it, exactly like the JS split on `/\r?\n/`. -/
def splitLinesAux (acc : List Char) : List Char → List String
  | [] => [String.mk acc.reverse]
  | c :: rest =>
    if c = '\n' then
      String.mk (match acc with | '\r' :: t => t.reverse | _ => acc.reverse)
        :: splitLinesAux [] rest
    else splitLinesAux (c :: acc) rest

/-- JS `text.split(/\r?\n/)`. -/
def splitLines (s : String) : List String := splitLinesAux [] s.data

/-- Helper for `splitDirectives`: when `skipWs` is set we are directly after
a separator and still consuming the `\s*` part of the separator match. -/
def splitDirAux (skipWs : Bool) (acc : List Char) : List Char → List String
  | [] => [String.mk acc.reverse]
  | c :: rest =>
    if c = ',' ∨ c = ';' then String.mk acc.reverse :: splitDirAux true [] rest
    else if skipWs && isJsWs c then splitDirAux true acc rest
    else splitDirAux false (c :: acc) rest

/-- JS `value.split(/[,;]\s*/)`, used for robots directives in
`computeSeoBasics`. -/
def splitDirectives (s : String) : List String := splitDirAux false [] s.data

/-- JS truthiness of a `string | undefined` value: `undefined` and the empty
string are falsy. -/
def strTruthy : Option String → Bool
  | some s => !s.data.isEmpty
  | none => false

/-- Access to the normalized (lower-cased keys) response-header map,
modelling `ctx.headers[name]` which yields a string or `undefined`. -/
def headerGet (headers : List (String × String)) (name : String) : Option String :=
  (headers.find? (fun h => h.1 == name)).map (·.2)

/-! ## Numeric primitives (`analysis/utils.ts`) -/

/-- JS `Math.round`: round half toward positive infinity. -/
def mathRound (q : ℚ) : ℤ := ⌊q + 1/2⌋

/-- `clampScore` from `analysis/utils.ts` with its default bounds 0 and 10
(every call site uses the defaults); the `Number.isNaN` guard has no
counterpart on `ℚ`. -/
def clampScore (value : ℚ) : ℚ := max 0 (min 10 value)

/-- `roundScore` from `analysis/utils.ts` with its default precision 2:
`Number(clampScore(value).toFixed(2))`.  `toFixed` rounds half away from
zero, which on the nonnegative output of `clampScore` agrees with
`Math.round`-style half-up rounding. -/
def roundScore (value : ℚ) : ℚ := (mathRound (clampScore value * 100) : ℚ) / 100

/-- The score/weight projection of a `ModuleResult` consumed by
`calculateWeightedScore`. -/
structure ScoredModule where
  score : ℚ
  weight : ℚ
deriving DecidableEq

/-- `calculateWeightedScore` from `analysis/utils.ts`: reduce the modules to
total weight and weighted sum, return 0 for an empty list or zero total
weight, otherwise the rounded clamped weighted mean. -/
def calculateWeightedScore (modules : List ScoredModule) : ℚ :=
  if modules = [] then 0
  else
    let totals := modules.foldl
      (fun acc m => (acc.1 + m.weight, acc.2 + m.score * m.weight)) ((0 : ℚ), (0 : ℚ))
    if totals.1 = 0 then 0 else roundScore (totals.2 / totals.1)

/-! ## SimHash fingerprints (technical-detector `utils.ts`) -/

/-- `HASH_BITS` from the detector utilities. -/
def HASH_BITS : Nat := 64

/-- Fueled bit-population count; the fuel bounds the number of halvings and
`popBits` supplies a fuel that always suffices, so this is exactly the
source's `while (xor) { distance += xor & 1; xor >>= 1 }` loop. -/
def popBitsAux : Nat → Nat → Nat
  | 0, _ => 0
  | fuel + 1, n => if n = 0 then 0 else n % 2 + popBitsAux fuel (n / 2)

/-- Number of set bits of `n` (the loop body of `hammingDistance`). -/
def popBits (n : Nat) : Nat := popBitsAux n n

/-- `hammingDistance` from the detector utilities: popcount of the xor. -/
def hammingDistance (a b : Nat) : Nat := popBits (a ^^^ b)

/-- `simHashSimilarity` from the detector utilities, including the special
case for two all-zero fingerprints. -/
def simHashSimilarity (a b : Nat) : ℚ :=
  if a = 0 ∧ b = 0 then 1 else 1 - (hammingDistance a b : ℚ) / (HASH_BITS : ℚ)

/-! ## TtlCache (`analysis/cache.ts`) -/

/-- One stored cache entry (`CacheEntry<T>`): the value and its absolute
expiry time in milliseconds. -/
structure CacheEntry (α : Type) where
  value : α
  expiresAt : Nat
deriving DecidableEq

/-- The private `Map<string, CacheEntry<T>>` of `TtlCache`, modelled as an
insertion-ordered association list. -/
abbrev TtlStore (α : Type) := List (String × CacheEntry α)

/-- JS `Map.prototype.set`: overwrite the entry of an existing key in place,
otherwise append at the end (insertion order). -/
def mapSet {α : Type} (store : TtlStore α) (key : String) (entry : CacheEntry α) :
    TtlStore α :=
  if (store.find? (fun e => e.1 == key)).isSome then
    store.map (fun e => if e.1 == key then (key, entry) else e)
  else store ++ [(key, entry)]

/-- `TtlCache.get`: expiry is checked lazily — an entry with
`expiresAt <= Date.now()` is deleted from the map and reported absent.
Returns the looked-up value together with the updated store; `now` stands
for `Date.now()`. -/
def cacheGet {α : Type} (store : TtlStore α) (key : String) (now : Nat) :
    Option α × TtlStore α :=
  match store.find? (fun e => e.1 == key) with
  | none => (none, store)
  | some e =>
    if e.2.expiresAt ≤ now then (none, store.filter (fun p => !(p.1 == key)))
    else (some e.2.value, store)

/-- `TtlCache.set`: store the value with expiry `Date.now() + ttlMs`. -/
def cacheSet {α : Type} (store : TtlStore α) (key : String) (value : α)
    (now ttl : Nat) : TtlStore α :=
  mapSet store key ⟨value, now + ttl⟩

/-! ## Geo lookup (`analysis/geo.ts`) -/

/-- The fields of the IP-geolocation provider response selected by the
`fields` query parameter of `lookupGeo`. -/
structure GeoResult where
  status : String
  country : Option String
  countryCode : Option String
  regionName : Option String
  isp : Option String
deriving DecidableEq

/-- Outcome of the `got(...).json<GeoLookupResult>()` call inside
`lookupGeo`: the request can fail on the network, fail to parse as JSON, or
deliver a parsed `GeoLookupResult` (whatever its `status` field says). -/
inductive GeoOutcome where
  | netError
  | parseError
  | ok (response : GeoResult)
deriving DecidableEq

/-- `lookupGeo` from `geo.ts`.  `cached` is the result of
`geoCache.get(cacheKey)`; the `try/catch` around the request maps both
error outcomes to `null`, and a parsed response is returned unchanged.
The function is total, so the embedded lookup can never raise. -/
def lookupGeo (hostname : String) (skipCache : Bool) (cached : Option GeoResult)
    (outcome : GeoOutcome) : Option GeoResult :=
  if hostname.data.isEmpty then none
  else if !skipCache && cached.isSome then cached
  else
    match outcome with
    | .netError => none
    | .parseError => none
    | .ok r => some r

/-! ## Sitemap candidates (`analysis/http.ts`) -/

/-- JS `Set.prototype.add` on an insertion-ordered string set. -/
def addCandidate (cands : List String) (url : String) : List String :=
  if cands.contains url then cands else cands ++ [url]

/-- `collectSitemapCandidates` from `analysis/http.ts`.  `resolve` models
WHATWG `new URL(ref, origin.origin).toString()` (returning `none` when the
constructor throws).  Each trimmed robots line matching `/^sitemap:/i` is
split on every `":"` and only index 1 of the split is kept — this is the
verbatim `line.split(":")[1]` of the source. -/
def collectSitemapCandidates (resolve : String → Option String)
    (robotsTxt : Option String) : List String :=
  let fromRobots :=
    match robotsTxt with
    | none => []
    | some txt =>
      ((splitLines txt).map jsTrim).foldl
        (fun cands line =>
          if strStarts (jsToLower line) "sitemap:" then
            match (splitChar ':' line).get? 1 with
            | some raw =>
              let sitemapUrl := jsTrim raw
              if sitemapUrl.data.isEmpty then cands
              else
                match resolve sitemapUrl with
                | some absolute => addCandidate cands absolute
                | none => cands
            | none => cands
          else cands)
        []
  let cands :=
    if fromRobots.isEmpty then
      match resolve "/sitemap.xml" with
      | some fallback => [fallback]
      | none => []
    else fromRobots
  cands.take 3

/-- A concrete model of WHATWG URL resolution against an origin, adequate
for the inputs used in the theorems below: absolute `http(s)` references
are kept as given, root-relative references are joined to the origin, and
any other reference is treated as a path below the origin root. -/
def resolveSimple (origin : String) (s : String) : Option String :=
  if strStarts s "http://" || strStarts s "https://" then some s
  else if strStarts s "/" then some (origin ++ s)
  else some (origin ++ "/" ++ s)

/-! ## Security module (`analysis/modules.ts`, `computeSecurity`) -/

/-- Issue-severity counters (`ModuleIssues` in `analysis/types.ts`);
`createIssueTracker()` is `⟨0, 0, 0⟩` and `incrementIssue` bumps one
field. -/
structure ModuleIssues where
  critical : Nat
  warning : Nat
  info : Nat
deriving DecidableEq

/-- The scoring-relevant part of a module computation: score, summary,
recommendations and issue counters.  The presentation-only `details` /
`highlights` bags of the source are not modelled. -/
structure ModuleComputation where
  score : ℚ
  summary : String
  recommendations : List String
  issues : ModuleIssues
deriving DecidableEq

/-- The analysis context slice read by `computeSecurity`: the resolved URL
protocol (`ctx.url.protocol`), the normalized response headers, and — for
each element matched by the selector `[src],[href]` in document order — its
`src` and `href` attribute values. -/
structure SecurityCtx where
  protocol : String
  headers : List (String × String)
  nodes : List (Option String × Option String)
deriving DecidableEq

/-- Tail of the regex `/frame-ancestors\s+\*/`: zero or more further
whitespace characters followed by a literal `*`. -/
def wsStarTail : List Char → Bool
  | [] => false
  | c :: rest => if c = '*' then true else if isJsWs c then wsStarTail rest else false

/-- After the literal `frame-ancestors`, the regex requires at least one
whitespace character and then a `*` (with optional whitespace between). -/
def wsThenStar : List Char → Bool
  | [] => false
  | c :: rest => isJsWs c && wsStarTail rest

/-- Scan for a match of `/frame-ancestors\s+\*/` anywhere in the list. -/
def scanFrameAncStar : List Char → Bool
  | [] => false
  | c :: rest =>
    (listStarts "frame-ancestors".data (c :: rest) && wsThenStar ((c :: rest).drop 15))
      || scanFrameAncStar rest

/-- JS `/frame-ancestors\s+\*/i.test(csp)`. -/
def frameAncHasStar (csp : String) : Bool := scanFrameAncStar (jsToLower csp).data

/-- `computeSecurity` from `analysis/modules.ts`: a non-HTTPS protocol
returns immediately with score 0 and one critical issue; otherwise five
checks add 2 points each (HSTS present, `nosniff`, frame protection,
`text/html` content type with charset, zero `http://` references in
`src`/`href` attributes). -/
def computeSecurity (ctx : SecurityCtx) : ModuleComputation :=
  let isHttps := ctx.protocol == "https:"
  if !isHttps then
    { score := 0
      summary := "HTTPS is required for any meaningful score."
      recommendations := ["Serve the site over HTTPS to avoid major SEO penalties."]
      issues := ⟨1, 0, 0⟩ }
  else
    let hsts := headerGet ctx.headers "strict-transport-security"
    let xcto := headerGet ctx.headers "x-content-type-options"
    let xfo := headerGet ctx.headers "x-frame-options"
    let csp := headerGet ctx.headers "content-security-policy"
    let contentType := (headerGet ctx.headers "content-type").getD ""
    let nosniff :=
      match xcto with
      | some v => strHasSub (jsToLower v) "nosniff"
      | none => false
    let frameProtected :=
      (strTruthy xfo && !strHasSub (jsToLower (xfo.getD "")) "allow")
        || (strTruthy csp && strHasSub (jsToLower (csp.getD "")) "frame-ancestors"
              && !frameAncHasStar (csp.getD ""))
    let typeOk :=
      strHasSub (jsToLower contentType) "text/html"
        && strHasSub (jsToLower contentType) "charset="
    let mixedContent :=
      (ctx.nodes.filter (fun n =>
        match (match n.1 with | some _ => n.1 | none => n.2) with
        | some v => strStarts v "http://"
        | none => false)).length
    let score1 : ℚ := if strTruthy hsts then 2 else 0
    let score2 := if nosniff then score1 + 2 else score1
    let score3 := if frameProtected then score2 + 2 else score2
    let score4 := if typeOk then score3 + 2 else score3
    let score5 := if mixedContent = 0 then score4 + 2 else score4
    { score := clampScore score5
      summary :=
        if mixedContent ≠ 0 then "Security headers set but mixed content detected."
        else "Core security headers look good."
      recommendations :=
        (if strTruthy hsts then [] else ["Add Strict-Transport-Security header."])
          ++ (if nosniff then [] else ["Add X-Content-Type-Options: nosniff."])
          ++ (if frameProtected then []
              else ["Set X-Frame-Options DENY or a CSP frame-ancestors rule."])
          ++ (if typeOk then [] else ["Return Content-Type: text/html; charset=UTF-8."])
          ++ (if mixedContent = 0 then []
              else ["Mixed-content resources detected; upgrade to HTTPS."])
      issues := if mixedContent = 0 then ⟨0, 0, 0⟩ else ⟨0, 1, 0⟩ }

/-! ## SEO-Basics module (`analysis/modules.ts`, `computeSeoBasics`) -/

/-- JS `String.prototype.length` (UTF-16 units; the inputs considered are
BMP text, where this equals the codepoint count). -/
def jsLength (s : String) : Nat := s.data.length

/-- Per-URL fetch outcome inside a `SitemapSummary`. -/
structure FetchedSitemap where
  url : String
  ok : Bool
  statusCode : Option Nat
deriving DecidableEq

/-- `SitemapSummary` from `analysis/types.ts` (entries elided — only
`fetched[].ok` and `hasHreflang` are read by the scoring modules). -/
structure SitemapSummaryM where
  urls : List String
  fetched : List FetchedSitemap
  hasHreflang : Bool
deriving DecidableEq

/-- The analysis context slice read by `computeSeoBasics`: the first
`<title>` element's text, the `content` attribute of
`meta[name="description" i]`, the number of `link[rel="canonical"]`
elements, the `content` attribute of `meta[name="robots" i]`, the
normalized headers, and the sitemap summary. -/
structure SeoBasicsCtx where
  titleText : String
  metaDescription : Option String
  canonicalCount : Nat
  robotsMeta : Option String
  headers : List (String × String)
  sitemap : Option SitemapSummaryM
deriving DecidableEq

/-- `value.split(/[,;]\s*/).map(e => e.toLowerCase()).filter(Boolean)`,
the directive-list normalization of `computeSeoBasics`. -/
def directiveList (s : String) : List String :=
  ((splitDirectives s).map jsToLower).filter (fun d => !d.data.isEmpty)

/-- `computeSeoBasics` from `analysis/modules.ts`: five independent checks
worth 2 points each (title length 30–60, meta description length 70–160,
exactly one canonical tag, indexable, at least one sitemap candidate
fetched ok), clamped to [0, 10]. -/
def computeSeoBasics (ctx : SeoBasicsCtx) : ModuleComputation :=
  let title := jsTrim ctx.titleText
  let metaDescription := (ctx.metaDescription.map jsTrim).getD ""
  let robotsDirectives := directiveList (ctx.robotsMeta.getD "")
  let headerDirectives := directiveList ((headerGet ctx.headers "x-robots-tag").getD "")
  let indexable :=
    !((robotsDirectives ++ headerDirectives).any (fun d => d == "noindex" || d == "none"))
  let sitemapOk :=
    match ctx.sitemap with
    | some s => s.fetched.any (·.ok)
    | none => false
  let score1 : ℚ := if 30 ≤ jsLength title ∧ jsLength title ≤ 60 then 2 else 0
  let score2 :=
    if 70 ≤ jsLength metaDescription ∧ jsLength metaDescription ≤ 160 then score1 + 2
    else score1
  let score3 := if ctx.canonicalCount = 1 then score2 + 2 else score2
  let score4 := if indexable = true then score3 + 2 else score3
  let score5 := if sitemapOk = true then score4 + 2 else score4
  { score := clampScore score5
    summary :=
      if indexable = true then "Core on-page tags are mostly configured."
      else "Indexing directives currently block crawlers."
    recommendations :=
      (if 30 ≤ jsLength title ∧ jsLength title ≤ 60 then []
       else ["Keep the <title> tag between 30-60 characters."])
        ++ (if 70 ≤ jsLength metaDescription ∧ jsLength metaDescription ≤ 160 then []
            else ["Meta description should be 70-160 characters describing the page intent."])
        ++ (if ctx.canonicalCount = 1 then []
            else [if ctx.canonicalCount = 0 then "Add a canonical tag."
                  else "Avoid multiple canonical tags."])
        ++ (if indexable = true then [] else ["Remove noindex directives to allow crawling."])
        ++ (if sitemapOk = true then []
            else ["Ensure sitemap.xml is accessible and referenced in robots.txt."])
    issues :=
      ⟨(if indexable = true then 0 else 1),
       (if 30 ≤ jsLength title ∧ jsLength title ≤ 60 then 0 else 1)
         + (if ctx.canonicalCount = 1 then 0 else 1),
       0⟩ }

/-! ## Accessibility module (`analysis/modules.ts`, `computeAccessibility`) -/

/-- One `<img>` element: its `alt` and `src` attributes. -/
structure ImgElem where
  alt : Option String
  src : Option String
deriving DecidableEq

/-- The `landmarkSelectors` array of `computeAccessibility`. -/
def landmarkSelectors : List String :=
  ["main", "nav", "header", "footer", "aside",
   "[role=main]", "[role=navigation]", "[role=banner]", "[role=contentinfo]"]

/-- The analysis context slice read by `computeAccessibility`: the `<img>`
elements in document order, and for each CSS selector whether the document
contains at least one match (`ctx.dom(selector).length > 0`). -/
structure AccessCtx where
  images : List ImgElem
  present : String → Bool

/-- The images with a non-empty trimmed `alt` string
(`typeof alt === "string" && alt.trim().length > 0`). -/
def accessWithAlt (images : List ImgElem) : List ImgElem :=
  images.filter (fun i =>
    match i.alt with
    | some a => !(jsTrim a).data.isEmpty
    | none => false)

/-- `altRatio`: coverage of alt text, defined as 1 when there are no
images (`images.length ? withAlt.length / images.length : 1`). -/
def accessAltRatio (images : List ImgElem) : ℚ :=
  if images.length ≠ 0 then ((accessWithAlt images).length : ℚ) / (images.length : ℚ)
  else 1

/-- `computeAccessibility` from `analysis/modules.ts`:
`clamp(round(altRatio·6))`, plus 2 when `altRatio ≥ 0.95`, plus 2 when at
least two distinct landmark selector types match, clamped to [0, 10]. -/
def computeAccessibility (ctx : AccessCtx) : ModuleComputation :=
  let altRatio := accessAltRatio ctx.images
  let foundLandmarks := landmarkSelectors.filter ctx.present
  let base := clampScore ((mathRound (altRatio * 6) : ℚ))
  let score1 := if 95/100 ≤ altRatio then base + 2 else base
  let score2 := if 2 ≤ foundLandmarks.length then score1 + 2 else score1
  { score := clampScore score2
    summary := "Alt coverage at " ++ toString (mathRound (altRatio * 100)) ++ "%."
    recommendations :=
      (if altRatio < 95/100 then
        ["Add descriptive alt text to all meaningful images. Decorative media should use empty alt attributes."]
       else [])
        ++ (if foundLandmarks.length < 2 then
              ["Use at least two semantic landmarks (<main>, <nav>, <aside>, etc.) for better keyboard navigation."]
            else [])
    issues := ⟨0, if altRatio < 95/100 then 1 else 0, 0⟩ }

/-! ## Link sampler (`analysis/modules.ts`, `evaluateLinkSample`) -/

/-- `LINK_SAMPLE_LIMIT` from `analysis/constants.ts`. -/
def LINK_SAMPLE_LIMIT : Nat := 50

/-- A resolved URL as far as the link sampler reads it: its serialization
(`toString()`) and its `origin`.  Models the WHATWG `URL` object; because
`new URL(u.toString())` round-trips, the source's resolve-then-reparse of
the same string is collapsed into a single resolution step. -/
structure UrlM where
  full : String
  origin : String
deriving DecidableEq

/-- `shouldSkipHref`: the anchored regex `/^(javascript:|mailto:|tel:)/i`. -/
def shouldSkipHref (href : String) : Bool :=
  strStarts (jsToLower href) "javascript:"
    || strStarts (jsToLower href) "mailto:"
    || strStarts (jsToLower href) "tel:"

/-- `LinkSampleEntry` from `analysis/types.ts`. -/
structure LinkSampleEntry where
  url : String
  statusCode : Option Nat
  ok : Bool
  rel : Option String
deriving DecidableEq

/-- `LinkSampleSummary` from `analysis/types.ts`. -/
structure LinkSampleSummary where
  total : Nat
  checked : List LinkSampleEntry
  broken : List LinkSampleEntry
  nofollow : Nat
deriving DecidableEq

/-- `headCheck`: `probe` models the HEAD request, yielding the obtained
status code or `none` on a request error; `ok` is
`Boolean(statusCode && statusCode < 400)`. -/
def headCheckM (probe : String → Option Nat) (url : String) (rel : Option String) :
    LinkSampleEntry :=
  match probe url with
  | some code => ⟨url, some code, decide (code ≠ 0 ∧ code < 400), rel⟩
  | none => ⟨url, none, false, rel⟩

/-- The early-return chain of the `.each` callback in `evaluateLinkSample`,
for one `a[href]` element given as its `href` and `rel` attributes: skip a
missing or (after trimming) empty href, skip `javascript:`/`mailto:`/
`tel:` schemes, skip unresolvable hrefs, skip cross-origin targets;
otherwise yield the serialized resolved URL with the `rel` attribute. -/
def qualifyLink (resolve : String → Option UrlM) (origin : UrlM)
    (l : Option String × Option String) : Option (String × Option String) :=
  match l.1.map jsTrim with
  | none => none
  | some href =>
    if href.data.isEmpty || shouldSkipHref href then none
    else
      match resolve href with
      | none => none
      | some u => if u.origin != origin.origin then none else some (u.full, l.2)

/-- The candidate-collection loop of `evaluateLinkSample` over the
`a[href]` elements in document order.  The `seen` set of the source always
holds exactly the URLs already in `acc`, so the dedup test is phrased on
`acc`; once the accumulator reaches `LINK_SAMPLE_LIMIT` the `.each`
callback returns `false` and iteration stops. -/
def collectLinkCandidates (resolve : String → Option UrlM) (origin : UrlM) :
    List (Option String × Option String) → List (String × Option String) →
    List (String × Option String)
  | [], acc => acc
  | l :: rest, acc =>
    if LINK_SAMPLE_LIMIT ≤ acc.length then acc
    else
      match qualifyLink resolve origin l with
      | none => collectLinkCandidates resolve origin rest acc
      | some c =>
        if acc.any (fun x => x.1 == c.1) then collectLinkCandidates resolve origin rest acc
        else collectLinkCandidates resolve origin rest (acc ++ [c])

/-- `normalizedRel` from `analysis/modules.ts`. -/
def normalizedRel : Option String → String
  | some r => jsToLower r
  | none => ""

/-- `evaluateLinkSample` from `analysis/modules.ts`.  The bounded worker
pool (5 workers pulling from the shared candidate queue) probes every
queued candidate exactly once; scheduling only permutes completion order,
which the summary counts do not observe, so the embedding drains the queue
in order. -/
def evaluateLinkSample (resolve : String → Option UrlM) (probe : String → Option Nat)
    (origin : UrlM) (links : List (Option String × Option String)) : LinkSampleSummary :=
  let candidates := collectLinkCandidates resolve origin links []
  let results := candidates.map (fun c => headCheckM probe c.1 c.2)
  { total := candidates.length
    checked := results
    broken := results.filter (fun e => !e.ok)
    nofollow := (candidates.filter
      (fun c => strHasSub (normalizedRel c.2) "nofollow")).length }

/-- Declarative counterpart of the candidate filter: the links that
qualify (present, non-empty after trimming, scheme not excluded,
resolvable, same-origin), in document order. -/
def qualifyingLinks (resolve : String → Option UrlM) (origin : UrlM)
    (links : List (Option String × Option String)) : List (String × Option String) :=
  links.filterMap (qualifyLink resolve origin)

/-- First-occurrence deduplication by resolved URL, relative to an initial
set of already-seen URLs. -/
def dedupByUrl (seen : List String) :
    List (String × Option String) → List (String × Option String)
  | [] => []
  | c :: rest =>
    if seen.any (· == c.1) then dedupByUrl seen rest
    else c :: dedupByUrl (c.1 :: seen) rest

/-! ## Duplicate-content detector (technical-detector `checks.ts`) -/

/-- JS `Number(value.toFixed(3))` on the nonnegative similarity values. -/
def round3 (q : ℚ) : ℚ := (mathRound (q * 1000) : ℚ) / 1000

/-- One flagged near-duplicate pair. -/
structure DupPair where
  a : Nat
  b : Nat
  similarity : ℚ
deriving DecidableEq

/-- `IssueBuckets` of the technical detectors; each issue is represented by
its summary string. -/
structure IssueBuckets where
  critical : List String
  warnings : List String
  improvements : List String
deriving DecidableEq

/-- The duplicate-content detector result: the fingerprint count, the
flagged pairs and the issue buckets (`preview`/`tokens` sample fields are
presentation-only and not modelled). -/
structure DupContentResult where
  fingerprintCount : Nat
  duplicates : List DupPair
  issues : IssueBuckets
deriving DecidableEq

/-- The text blocks selected by `detectDuplicateContent`: the `textContent`
of every block-level node (given in document order; `none` for a null
`textContent`), trimmed, kept when at least 120 characters, capped at
40 blocks. -/
def dupChunks (texts : List (Option String)) : List String :=
  ((texts.map (fun t => (t.map jsTrim).getD "")).filter
    (fun t => 120 ≤ jsLength t)).take 40

/-- The SimHash fingerprints of the selected blocks; `hash` models
`computeSimHash` (a pure function of the block text whose SHA-1 digests
are external). -/
def dupFingerprints (hash : String → Nat) (texts : List (Option String)) : List Nat :=
  (dupChunks texts).map hash

/-- The nested pair loops of `detectDuplicateContent`:
`for i in [0, n) for j in [i+1, n)` (the inner index list is
`range' (i+1) (n-(i+1)) = [i+1, …, n-1]`), flagging pairs with similarity
at least 0.92 and recording the similarity rounded to three decimals. -/
def dupPairs (fps : List Nat) : List DupPair :=
  (List.range fps.length).flatMap (fun i =>
    (List.range' (i + 1) (fps.length - (i + 1))).filterMap (fun j =>
      let s := simHashSimilarity (fps.getD i 0) (fps.getD j 0)
      if 92/100 ≤ s then some ⟨i, j, round3 s⟩ else none))

/-- Restatement of `dupPairs` with the similarity threshold turned into
the equivalent decidable Hamming-distance test `d ≤ 5`; used to evaluate
the detector on concrete fingerprints. -/
def dupPairsNat (fps : List Nat) : List DupPair :=
  (List.range fps.length).flatMap (fun i =>
    (List.range' (i + 1) (fps.length - (i + 1))).filterMap (fun j =>
      if hammingDistance (fps.getD i 0) (fps.getD j 0) ≤ 5 then
        some ⟨i, j, round3 (simHashSimilarity (fps.getD i 0) (fps.getD j 0))⟩
      else none))

/-- `detectDuplicateContent` from the technical detectors: fingerprint the
selected blocks, flag all near-duplicate pairs, escalate to a warning at
3 or more pairs and to an improvement note at 1 or 2. -/
def detectDuplicateContent (hash : String → Nat) (texts : List (Option String)) :
    DupContentResult :=
  let fingerprints := dupFingerprints hash texts
  let duplicates := dupPairs fingerprints
  let buckets : IssueBuckets :=
    if 3 ≤ duplicates.length then
      ⟨[], ["Multiple sections of the page appear near-identical"], []⟩
    else if duplicates.length ≠ 0 then
      ⟨[], [], ["Some sections repeat similar content"]⟩
    else ⟨[], [], []⟩
  { fingerprintCount := fingerprints.length
    duplicates := duplicates
    issues := buckets }

/-- Hash on block lengths used by the concrete C9 scenario: the three
copies (length 120) share fingerprint 0, and every longer block gets a
fingerprint whose bytes repeat `length - 119`, so distinct blocks are at
Hamming distance at least 8 from each other and from 0. -/
def dupLenHash (n : Nat) : Nat :=
  if n = 120 then 0 else (n - 119) * 72340172838076673

/-- A `computeSimHash` model for the C9 scenario (a function of the block
text through its length). -/
def dupWitnessHash (s : String) : Nat := dupLenHash (jsLength s)

/-- 41 qualifying blocks: blocks 0, 1, 2 are verbatim copies (120 × `a`)
and blocks 3 … 40 have pairwise different lengths 121 … 158. -/
def dupWitnessTexts : List (Option String) :=
  (List.range 41).map (fun k =>
    some (String.mk (List.replicate (if k < 3 then 120 else 118 + k) 'a')))

/-- Concrete SEO-Basics context for the scenario in the spec: short title,
no meta description, no canonical tag, indexable, reachable sitemap. -/
def seoBasicsWitnessCtx : SeoBasicsCtx :=
  ⟨"Example Domain", none, 0, none, [],
   some ⟨["https://example.com/sitemap.xml"],
         [⟨"https://example.com/sitemap.xml", true, some 200⟩], false⟩⟩

/-- Concrete accessibility context: an image-free document in which every
landmark selector matches. -/
def accessWitnessCtx : AccessCtx := ⟨[], fun _ => true⟩

/-! # Theorems -/

/-! ## Arithmetic helper lemmas -/

theorem mathRound_intCast (n : ℤ) : mathRound (n : ℚ) = n := by
  rw [mathRound, Int.floor_eq_iff]
  constructor
  · linarith
  · linarith

theorem mathRound_mono {x y : ℚ} (h : x ≤ y) : mathRound x ≤ mathRound y :=
  Int.floor_le_floor (by linarith)

theorem clampScore_nonneg (x : ℚ) : 0 ≤ clampScore x := le_max_left 0 _

theorem clampScore_le_ten (x : ℚ) : clampScore x ≤ 10 :=
  max_le (by norm_num) (min_le_left 10 x)

theorem clampScore_of_mem {x : ℚ} (h0 : 0 ≤ x) (h10 : x ≤ 10) : clampScore x = x := by
  rw [clampScore, min_eq_right h10, max_eq_right h0]

theorem roundScore_nonneg (x : ℚ) : 0 ≤ roundScore x := by
  rw [roundScore]
  have h0 : ((0 : ℤ) : ℚ) ≤ clampScore x * 100 := by
    push_cast
    exact mul_nonneg (clampScore_nonneg x) (by norm_num)
  have h : (0 : ℤ) ≤ mathRound (clampScore x * 100) := by
    have := mathRound_mono h0
    rwa [mathRound_intCast] at this
  exact div_nonneg (by exact_mod_cast h) (by norm_num)

theorem roundScore_le_ten (x : ℚ) : roundScore x ≤ 10 := by
  rw [roundScore]
  have h : mathRound (clampScore x * 100) ≤ 1000 := by
    have hle : clampScore x * 100 ≤ ((1000 : ℤ) : ℚ) := by
      have := clampScore_le_ten x
      push_cast
      linarith
    have := mathRound_mono hle
    rwa [mathRound_intCast] at this
  have : (mathRound (clampScore x * 100) : ℚ) ≤ 1000 := by exact_mod_cast h
  linarith

/-- The source clamps before rounding; the spec states round-then-clamp.
The two agree because the rounding is monotone and fixes 0 and 10. -/
theorem roundScore_eq_clamp_round (x : ℚ) :
    roundScore x = clampScore ((mathRound (x * 100) : ℚ) / 100) := by
  rcases le_or_lt x 0 with h0 | h0
  · have hc : clampScore x = 0 := by
      rw [clampScore, min_eq_right (by linarith), max_eq_left h0]
    have hr : mathRound (x * 100) ≤ 0 := by
      have := mathRound_mono (by push_cast; linarith : x * 100 ≤ ((0 : ℤ) : ℚ))
      rwa [mathRound_intCast] at this
    have hrq : ((mathRound (x * 100) : ℤ) : ℚ) ≤ 0 := by exact_mod_cast hr
    rw [roundScore, hc, clampScore]
    rw [show ((0:ℚ) * 100) = ((0 : ℤ) : ℚ) by norm_num, mathRound_intCast]
    rw [min_eq_right (by linarith : (mathRound (x * 100) : ℚ) / 100 ≤ 10)]
    rw [max_eq_left (by linarith : (mathRound (x * 100) : ℚ) / 100 ≤ 0)]
    norm_num
  · rcases le_or_lt x 10 with h10 | h10
    · have hc : clampScore x = x := clampScore_of_mem (le_of_lt h0) h10
      rw [roundScore, hc]
      have hlo : (0 : ℤ) ≤ mathRound (x * 100) := by
        have := mathRound_mono (by push_cast; linarith : ((0 : ℤ) : ℚ) ≤ x * 100)
        rwa [mathRound_intCast] at this
      have hhi : mathRound (x * 100) ≤ 1000 := by
        have := mathRound_mono (by push_cast; linarith : x * 100 ≤ ((1000 : ℤ) : ℚ))
        rwa [mathRound_intCast] at this
      have hloq : (0:ℚ) ≤ (mathRound (x * 100) : ℚ) := by exact_mod_cast hlo
      have hhiq : (mathRound (x * 100) : ℚ) ≤ 1000 := by exact_mod_cast hhi
      rw [clampScore_of_mem (by linarith) (by linarith)]
    · have hc : clampScore x = 10 := by
        rw [clampScore, min_eq_left (by linarith), max_eq_right (by norm_num)]
      have hr : (1000 : ℤ) ≤ mathRound (x * 100) := by
        have := mathRound_mono (by push_cast; linarith : ((1000 : ℤ) : ℚ) ≤ x * 100)
        rwa [mathRound_intCast] at this
      have hrq : (1000:ℚ) ≤ (mathRound (x * 100) : ℚ) := by exact_mod_cast hr
      rw [roundScore, hc, clampScore]
      rw [show ((10:ℚ) * 100) = ((1000 : ℤ) : ℚ) by norm_num, mathRound_intCast]
      rw [min_eq_left (by linarith : (10:ℚ) ≤ (mathRound (x * 100) : ℚ) / 100)]
      rw [max_eq_right (by norm_num : (0:ℚ) ≤ (10:ℚ))]
      norm_num

theorem weightedFold (modules : List ScoredModule) (a b : ℚ) :
    modules.foldl (fun acc m => (acc.1 + m.weight, acc.2 + m.score * m.weight)) (a, b)
      = (a + (modules.map (·.weight)).sum,
         b + (modules.map (fun m => m.score * m.weight)).sum) := by
  induction modules generalizing a b with
  | nil => simp
  | cons m rest ih => simp [ih, List.sum_cons]; constructor <;> ring

/-! ## C1 -/

/-- C1: `calculateWeightedScore` returns 0 on the empty module list, always
lands in [0, 10], and whenever the total weight is nonzero it equals the
weighted mean Σ(score·weight)/Σ(weight) rounded to two decimals and clamped
to [0, 10]. -/
theorem C1_calculateWeightedScore :
    calculateWeightedScore [] = 0
    ∧ (∀ modules : List ScoredModule,
        0 ≤ calculateWeightedScore modules ∧ calculateWeightedScore modules ≤ 10)
    ∧ (∀ modules : List ScoredModule,
        (modules.map (·.weight)).sum ≠ 0 →
        calculateWeightedScore modules
          = clampScore ((mathRound
              (((modules.map (fun m => m.score * m.weight)).sum
                  / (modules.map (·.weight)).sum) * 100) : ℚ) / 100)) := by
  refine ⟨rfl, ?_, ?_⟩
  · intro modules
    simp only [calculateWeightedScore, weightedFold, zero_add]
    split_ifs
    · norm_num
    · norm_num
    · exact ⟨roundScore_nonneg _, roundScore_le_ten _⟩
  · intro modules hw
    have hne : modules ≠ [] := by
      intro h
      exact hw (by simp [h])
    simp only [calculateWeightedScore, weightedFold, zero_add, if_neg hne, if_neg hw]
    exact roundScore_eq_clamp_round _

/-- Witness for C1 at a concrete one-module list. -/
theorem C1_calculateWeightedScore_witness :
    (([⟨5, 100⟩] : List ScoredModule).map (·.weight)).sum ≠ 0
    ∧ calculateWeightedScore [⟨5, 100⟩]
        = clampScore ((mathRound
            (((([⟨5, 100⟩] : List ScoredModule).map (fun m => m.score * m.weight)).sum
                / (([⟨5, 100⟩] : List ScoredModule).map (·.weight)).sum) * 100) : ℚ) / 100) := by
  have hw : (([⟨5, 100⟩] : List ScoredModule).map (·.weight)).sum ≠ 0 := by
    simp
  exact ⟨hw, C1_calculateWeightedScore.2.2 [⟨5, 100⟩] hw⟩

/-! ## C4 -/

theorem popBits_zero : popBits 0 = 0 := rfl

theorem hammingDistance_self (a : Nat) : hammingDistance a a = 0 := by
  rw [hammingDistance, Nat.xor_self]
  exact popBits_zero

theorem hammingDistance_comm (a b : Nat) : hammingDistance a b = hammingDistance b a := by
  rw [hammingDistance, hammingDistance, Nat.xor_comm]

theorem simHashSimilarity_eq (x y : Nat) :
    simHashSimilarity x y = 1 - (hammingDistance x y : ℚ) / 64 := by
  rw [simHashSimilarity]
  split
  · rename_i h
    rw [h.1, h.2, hammingDistance_self]
    norm_num
  · norm_num [HASH_BITS]

/-- C4: `simHashSimilarity` equals `1 − hammingDistance/64` on every pair of
fingerprints (the all-zero special case included), is symmetric, has
self-similarity 1, and is 1 whenever the Hamming distance is 0. -/
theorem C4_simHashSimilarity (a b : Nat) :
    simHashSimilarity a b = 1 - (hammingDistance a b : ℚ) / 64
    ∧ simHashSimilarity a b = simHashSimilarity b a
    ∧ simHashSimilarity a a = 1
    ∧ (hammingDistance a b = 0 → simHashSimilarity a b = 1) := by
  refine ⟨simHashSimilarity_eq a b, ?_, ?_, ?_⟩
  · rw [simHashSimilarity_eq a b, simHashSimilarity_eq b a, hammingDistance_comm]
  · rw [simHashSimilarity_eq a a, hammingDistance_self]
    norm_num
  · intro h
    rw [simHashSimilarity_eq a b, h]
    norm_num

/-- Witness for C4 discharging the zero-distance hypothesis at 0, 0. -/
theorem C4_simHashSimilarity_witness :
    hammingDistance 0 0 = 0 ∧ simHashSimilarity 0 0 = 1 :=
  ⟨by decide, (C4_simHashSimilarity 0 0).2.2.2 (by decide)⟩

/-! ## C2 -/

/-- C2: for every context whose resolved URL scheme is not `https:`, the
security module returns score exactly 0 and issues {critical 1, warning 0,
info 0}, regardless of the response headers and of the document's
`src`/`href` attributes — the header and mixed-content checks are never
reached. -/
theorem C2_computeSecurity (ctx : SecurityCtx) (h : ctx.protocol ≠ "https:") :
    (computeSecurity ctx).score = 0
    ∧ (computeSecurity ctx).issues = ⟨1, 0, 0⟩ := by
  have hb : (ctx.protocol == "https:") = false := by
    simpa using h
  simp [computeSecurity, hb]

/-- Witness for C2: an `http:` context that carries strong security headers
and a mixed-content-free document still scores 0 with one critical issue. -/
theorem C2_computeSecurity_witness :
    (SecurityCtx.mk "http:"
        [("strict-transport-security", "max-age=63072000"),
         ("x-content-type-options", "nosniff"),
         ("x-frame-options", "DENY"),
         ("content-type", "text/html; charset=utf-8")]
        [(none, some "https://example.com/x")]).protocol ≠ "https:"
    ∧ (computeSecurity (SecurityCtx.mk "http:"
        [("strict-transport-security", "max-age=63072000"),
         ("x-content-type-options", "nosniff"),
         ("x-frame-options", "DENY"),
         ("content-type", "text/html; charset=utf-8")]
        [(none, some "https://example.com/x")])).score = 0
    ∧ (computeSecurity (SecurityCtx.mk "http:"
        [("strict-transport-security", "max-age=63072000"),
         ("x-content-type-options", "nosniff"),
         ("x-frame-options", "DENY"),
         ("content-type", "text/html; charset=utf-8")]
        [(none, some "https://example.com/x")])).issues = ⟨1, 0, 0⟩ := by
  refine ⟨by decide, ?_, ?_⟩
  · exact (C2_computeSecurity _ (by decide)).1
  · exact (C2_computeSecurity _ (by decide)).2

/-! ## C3 -/

theorem find?_mapSet {α : Type} (store : TtlStore α) (key : String)
    (entry : CacheEntry α) :
    (mapSet store key entry).find? (fun e => e.1 == key) = some (key, entry) := by
  rw [mapSet]
  split
  · rename_i hsome
    induction store with
    | nil => simp at hsome
    | cons head tail ih =>
      by_cases hk : (head.1 == key) = true
      · have heq : head.1 = key := by simpa using hk
        simp [List.find?_cons, heq]
      · have hk' : (head.1 == key) = false := by
          simpa using hk
        rw [List.find?_cons, hk'] at hsome
        simp only [List.map_cons, List.find?_cons, hk', if_neg]
        rw [if_neg (by simp [hk'])]
        simpa [List.find?_cons, hk'] using ih hsome
  · rw [List.find?_append]
    rename_i hnone
    have hn : store.find? (fun e => e.1 == key) = none := by
      cases hfind : store.find? (fun e => e.1 == key) with
      | none => rfl
      | some v => rw [hfind] at hnone; simp at hnone
    simp [hn]

/-- C3: a `set` immediately followed by `get` (any time before the TTL has
elapsed) returns the stored value; once `now + ttl ≤ t` the `get` returns
absent and deletes the entry; and `get` never returns a value whose entry's
expiry time is not strictly in the future. -/
theorem C3_ttlCache :
    (∀ (α : Type) (store : TtlStore α) (key : String) (value : α) (ttl now t : Nat),
        t < now + ttl →
        (cacheGet (cacheSet store key value now ttl) key t).1 = some value)
    ∧ (∀ (α : Type) (store : TtlStore α) (key : String) (value : α) (ttl now t : Nat),
        now + ttl ≤ t →
        (cacheGet (cacheSet store key value now ttl) key t).1 = none
        ∧ ((cacheGet (cacheSet store key value now ttl) key t).2.find?
              (fun e => e.1 == key)) = none)
    ∧ (∀ (α : Type) (store : TtlStore α) (key : String) (now : Nat) (v : α),
        (cacheGet store key now).1 = some v →
        ∃ e, store.find? (fun p => p.1 == key) = some e
          ∧ e.2.value = v ∧ now < e.2.expiresAt) := by
  refine ⟨?_, ?_, ?_⟩
  · intro α store key value ttl now t ht
    rw [cacheGet, cacheSet, find?_mapSet]
    simp only
    rw [if_neg (by omega)]
  · intro α store key value ttl now t ht
    rw [cacheGet, cacheSet, find?_mapSet]
    simp only
    rw [if_pos (by omega)]
    refine ⟨rfl, ?_⟩
    simp only
    rw [List.find?_eq_none]
    intro x hx
    have := (List.mem_filter.mp hx).2
    simpa using this
  · intro α store key now v hget
    rw [cacheGet] at hget
    cases hfind : store.find? (fun p => p.1 == key) with
    | none => rw [hfind] at hget; simp at hget
    | some e =>
      rw [hfind] at hget
      dsimp only at hget
      by_cases hexp : e.2.expiresAt ≤ now
      · rw [if_pos hexp] at hget; simp at hget
      · rw [if_neg hexp] at hget
        refine ⟨e, rfl, ?_, by omega⟩
        simpa using hget

/-- Witness for C3 at a concrete store: set at time 0 with TTL 10, read back
at time 5 and at time 10, plus the no-expired-value invariant at time 3. -/
theorem C3_ttlCache_witness :
    ((5 : Nat) < 0 + 10
      ∧ (cacheGet (cacheSet ([] : TtlStore Nat) "k" 7 0 10) "k" 5).1 = some 7)
    ∧ ((0 : Nat) + 10 ≤ 10
      ∧ (cacheGet (cacheSet ([] : TtlStore Nat) "k" 7 0 10) "k" 10).1 = none)
    ∧ ((cacheGet ([("k", ⟨7, 10⟩)] : TtlStore Nat) "k" 3).1 = some 7
      ∧ ∃ e, ([("k", ⟨7, 10⟩)] : TtlStore Nat).find? (fun p => p.1 == "k") = some e
          ∧ e.2.value = 7 ∧ 3 < e.2.expiresAt) := by
  refine ⟨⟨by decide, ?_⟩, ⟨by decide, ?_⟩, ⟨by decide, ?_⟩⟩
  · exact C3_ttlCache.1 Nat [] "k" 7 10 0 5 (by decide)
  · exact (C3_ttlCache.2.1 Nat [] "k" 7 10 0 10 (by decide)).1
  · exact C3_ttlCache.2.2 Nat [("k", ⟨7, 10⟩)] "k" 3 7 (by decide)

/-! ## C5 -/

/-- C5: on a robots.txt declaring the absolute sitemap URL
`https://example.com/a.xml`, `collectSitemapCandidates` produces
`https://example.com/https` — `line.split(":")[1]` keeps only the scheme of
the declared URL, so the declared URL itself is never a candidate. -/
theorem C5_collectSitemapCandidates_bug :
    collectSitemapCandidates (resolveSimple "https://example.com")
        (some "Sitemap: https://example.com/a.xml")
      = ["https://example.com/https"]
    ∧ collectSitemapCandidates (resolveSimple "https://example.com")
        (some "Sitemap: https://example.com/a.xml")
      ≠ ["https://example.com/a.xml"] := by
  constructor
  · decide
  · decide

/-! ## C6 -/

/-- C6 counterexample: a provider response whose `status` field is `"fail"`
is returned as-is by `lookupGeo` (not mapped to absent), contradicting the
claim that a non-success status yields absent. -/
theorem C6_lookupGeo_counterexample :
    lookupGeo "example.com" true none
        (GeoOutcome.ok ⟨"fail", none, none, none, none⟩)
      = some ⟨"fail", none, none, none, none⟩
    ∧ ("fail" : String) ≠ "success" := by
  constructor
  · decide
  · decide

/-- C6 (amended): `lookupGeo` is a total function (the embedded lookup can
never raise), and on a network error or JSON parse error — absent a cache
hit — it returns absent; a successfully parsed provider response is
returned unchanged regardless of its `status` field. -/
theorem C6_lookupGeo_amended :
    (∀ (hostname : String) (skipCache : Bool) (cached : Option GeoResult)
        (outcome : GeoOutcome),
        (outcome = .netError ∨ outcome = .parseError) →
        lookupGeo hostname skipCache cached outcome = none
          ∨ (¬skipCache ∧ lookupGeo hostname skipCache cached outcome = cached))
    ∧ (∀ (hostname : String) (outcome : GeoOutcome),
        (outcome = .netError ∨ outcome = .parseError) →
        lookupGeo hostname true none outcome = none
          ∧ lookupGeo hostname false none outcome = none)
    ∧ (∀ (hostname : String) (r : GeoResult), hostname.data.isEmpty = false →
        lookupGeo hostname true none (.ok r) = some r) := by
  refine ⟨?_, ?_, ?_⟩
  · intro hostname skipCache cached outcome hout
    rw [lookupGeo.eq_def]
    rcases hout with h | h <;> subst h
    · by_cases hh : hostname.data.isEmpty
      · left; rw [if_pos hh]
      · rw [if_neg hh]
        by_cases hc : (!skipCache && cached.isSome) = true
        · right
          have hsc : skipCache = false := by
            cases skipCache
            · rfl
            · simp at hc
          exact ⟨by simp [hsc], by rw [if_pos hc]⟩
        · left
          rw [if_neg hc]
    · by_cases hh : hostname.data.isEmpty
      · left; rw [if_pos hh]
      · rw [if_neg hh]
        by_cases hc : (!skipCache && cached.isSome) = true
        · right
          have hsc : skipCache = false := by
            cases skipCache
            · rfl
            · simp at hc
          exact ⟨by simp [hsc], by rw [if_pos hc]⟩
        · left
          rw [if_neg hc]
  · intro hostname outcome hout
    rcases hout with h | h <;> subst h <;>
      constructor <;> rw [lookupGeo.eq_def] <;> split <;> simp
  · intro hostname r hh
    rw [lookupGeo.eq_def, if_neg (by simp [hh])]
    simp

/-- Witness for C6 (amended) at a concrete hostname and a network error. -/
theorem C6_lookupGeo_amended_witness :
    ((GeoOutcome.netError = GeoOutcome.netError ∨ GeoOutcome.netError = GeoOutcome.parseError)
      ∧ lookupGeo "example.com" true none .netError = none
      ∧ lookupGeo "example.com" false none .netError = none)
    ∧ ("example.com".data.isEmpty = false
      ∧ lookupGeo "example.com" true none (.ok ⟨"success", some "Germany", some "DE", none, none⟩)
          = some ⟨"success", some "Germany", some "DE", none, none⟩) := by
  refine ⟨⟨Or.inl rfl, C6_lookupGeo_amended.2.1 "example.com" .netError (Or.inl rfl)⟩,
    ⟨by decide, C6_lookupGeo_amended.2.2 "example.com" _ (by decide)⟩⟩

/-! ## C7 -/

/-- C7: the SEO-Basics score is 2 points per satisfied check among exactly
five — title length in [30, 60], meta-description length in [70, 160],
exactly one canonical tag, no `noindex`/`none` directive in the robots meta
tag or `X-Robots-Tag` header, and at least one sitemap candidate fetched
successfully — clamped to [0, 10]; in particular a page failing title,
description and canonical but indexable with a reachable sitemap scores
exactly 4. -/
theorem C7_computeSeoBasics :
    (∀ ctx : SeoBasicsCtx,
      (computeSeoBasics ctx).score
        = clampScore (2 *
            ((if 30 ≤ jsLength (jsTrim ctx.titleText)
                  ∧ jsLength (jsTrim ctx.titleText) ≤ 60 then (1 : ℚ) else 0)
              + (if 70 ≤ jsLength ((ctx.metaDescription.map jsTrim).getD "")
                    ∧ jsLength ((ctx.metaDescription.map jsTrim).getD "") ≤ 160
                 then 1 else 0)
              + (if ctx.canonicalCount = 1 then 1 else 0)
              + (if (!((directiveList (ctx.robotsMeta.getD "")
                      ++ directiveList ((headerGet ctx.headers "x-robots-tag").getD "")).any
                        (fun d => d == "noindex" || d == "none"))) = true then 1 else 0)
              + (if (match ctx.sitemap with
                     | some s => s.fetched.any (·.ok)
                     | none => false) = true then 1 else 0))))
    ∧ (∀ ctx : SeoBasicsCtx,
        ¬(30 ≤ jsLength (jsTrim ctx.titleText) ∧ jsLength (jsTrim ctx.titleText) ≤ 60) →
        ¬(70 ≤ jsLength ((ctx.metaDescription.map jsTrim).getD "")
            ∧ jsLength ((ctx.metaDescription.map jsTrim).getD "") ≤ 160) →
        ctx.canonicalCount ≠ 1 →
        (!((directiveList (ctx.robotsMeta.getD "")
            ++ directiveList ((headerGet ctx.headers "x-robots-tag").getD "")).any
              (fun d => d == "noindex" || d == "none"))) = true →
        (match ctx.sitemap with
         | some s => s.fetched.any (·.ok)
         | none => false) = true →
        (computeSeoBasics ctx).score = 4) := by
  constructor
  · intro ctx
    simp only [computeSeoBasics]
    split_ifs <;> norm_num [clampScore]
  · intro ctx h1 h2 h3 h4 h5
    simp only [computeSeoBasics]
    rw [if_neg h1, if_neg h2, if_neg h3, if_pos h4, if_pos h5]
    norm_num [clampScore]

/-- Witness for C7: the spec's scenario context scores exactly 4. -/
theorem C7_computeSeoBasics_witness :
    ¬(30 ≤ jsLength (jsTrim seoBasicsWitnessCtx.titleText)
        ∧ jsLength (jsTrim seoBasicsWitnessCtx.titleText) ≤ 60)
    ∧ ¬(70 ≤ jsLength ((seoBasicsWitnessCtx.metaDescription.map jsTrim).getD "")
        ∧ jsLength ((seoBasicsWitnessCtx.metaDescription.map jsTrim).getD "") ≤ 160)
    ∧ seoBasicsWitnessCtx.canonicalCount ≠ 1
    ∧ (!((directiveList (seoBasicsWitnessCtx.robotsMeta.getD "")
        ++ directiveList ((headerGet seoBasicsWitnessCtx.headers "x-robots-tag").getD "")).any
          (fun d => d == "noindex" || d == "none"))) = true
    ∧ (match seoBasicsWitnessCtx.sitemap with
       | some s => s.fetched.any (·.ok)
       | none => false) = true
    ∧ (computeSeoBasics seoBasicsWitnessCtx).score = 4 := by
  refine ⟨by decide, by decide, by decide, by decide, by decide, ?_⟩
  exact C7_computeSeoBasics.2 seoBasicsWitnessCtx
    (by decide) (by decide) (by decide) (by decide) (by decide)

/-! ## C10 -/

/-- C10: a context with zero `<img>` elements has alt-text ratio 1, scores
at least 8 in the accessibility module, scores exactly 10 when at least two
distinct landmark selector types are present, and exactly 8 otherwise — an
image-free page is never penalized on alt coverage. -/
theorem C10_computeAccessibility (ctx : AccessCtx) (h : ctx.images = []) :
    accessAltRatio ctx.images = 1
    ∧ 8 ≤ (computeAccessibility ctx).score
    ∧ (2 ≤ (landmarkSelectors.filter ctx.present).length →
        (computeAccessibility ctx).score = 10)
    ∧ ((landmarkSelectors.filter ctx.present).length < 2 →
        (computeAccessibility ctx).score = 8) := by
  have hratio : accessAltRatio ctx.images = 1 := by
    rw [h]
    simp [accessAltRatio]
  have key : (computeAccessibility ctx).score
      = if 2 ≤ (landmarkSelectors.filter ctx.present).length then 10 else 8 := by
    simp only [computeAccessibility]
    rw [hratio]
    rw [show ((1 : ℚ) * 6) = ((6 : ℤ) : ℚ) by norm_num, mathRound_intCast]
    rw [show clampScore (((6 : ℤ) : ℚ)) = 6 by
      rw [show (((6 : ℤ) : ℚ)) = (6 : ℚ) by norm_num]
      exact clampScore_of_mem (by norm_num) (by norm_num)]
    rw [if_pos (by norm_num : (95 : ℚ)/100 ≤ (1 : ℚ))]
    split_ifs with hl
    · norm_num [clampScore]
    · norm_num [clampScore]
  refine ⟨hratio, ?_, ?_, ?_⟩
  · rw [key]
    split_ifs <;> norm_num
  · intro hl
    rw [key, if_pos hl]
  · intro hl
    rw [key, if_neg (by omega)]

/-- Witness for C10: the image-free all-landmarks context scores 10. -/
theorem C10_computeAccessibility_witness :
    accessWitnessCtx.images = []
    ∧ 2 ≤ (landmarkSelectors.filter accessWitnessCtx.present).length
    ∧ (computeAccessibility accessWitnessCtx).score = 10 := by
  refine ⟨rfl, by decide, ?_⟩
  exact (C10_computeAccessibility accessWitnessCtx rfl).2.2.1 (by decide)

/-! ## C8 -/

theorem any_map_fst {β : Type} (l : List (String × β)) (u : String) :
    (l.map (·.1)).any (· == u) = l.any (fun x => x.1 == u) := by
  induction l with
  | nil => rfl
  | cons a rest ih => simp [List.any_cons, ih]

theorem qualifyingLinks_cons (resolve : String → Option UrlM) (origin : UrlM)
    (l : Option String × Option String) (rest : List (Option String × Option String)) :
    qualifyingLinks resolve origin (l :: rest)
      = (match qualifyLink resolve origin l with
         | none => qualifyingLinks resolve origin rest
         | some c => c :: qualifyingLinks resolve origin rest) := by
  simp only [qualifyingLinks, List.filterMap_cons]
  cases qualifyLink resolve origin l <;> rfl

theorem dedupByUrl_congr (l : List (String × Option String)) :
    ∀ (s1 s2 : List String), (∀ x, s1.any (· == x) = s2.any (· == x)) →
    dedupByUrl s1 l = dedupByUrl s2 l := by
  induction l with
  | nil => intro s1 s2 hseen; rfl
  | cons c rest ih =>
    intro s1 s2 hseen
    simp only [dedupByUrl]
    rw [hseen c.1]
    split_ifs with hc
    · exact ih s1 s2 hseen
    · rw [ih (c.1 :: s1) (c.1 :: s2) (fun x => by simp [List.any_cons, hseen x])]

theorem dedupByUrl_nodup (l : List (String × Option String)) :
    ∀ seen : List String,
      ((dedupByUrl seen l).map (·.1)).Nodup
      ∧ ∀ x ∈ (dedupByUrl seen l).map (·.1), seen.any (· == x) = false := by
  induction l with
  | nil =>
    intro seen
    exact ⟨List.nodup_nil, by simp [dedupByUrl]⟩
  | cons c rest ih =>
    intro seen
    simp only [dedupByUrl]
    split_ifs with hc
    · exact ih seen
    · constructor
      · simp only [List.map_cons, List.nodup_cons]
        refine ⟨?_, (ih (c.1 :: seen)).1⟩
        intro hmem
        have hany := (ih (c.1 :: seen)).2 c.1 hmem
        simp [List.any_cons] at hany
      · intro x hx
        simp only [List.map_cons, List.mem_cons] at hx
        rcases hx with hx | hx
        · subst hx
          cases h2 : seen.any (· == c.1) with
          | false => rfl
          | true => exact absurd h2 hc
        · have hany := (ih (c.1 :: seen)).2 x hx
          simp only [List.any_cons, Bool.or_eq_false_iff] at hany
          exact hany.2

theorem collectLinkCandidates_spec (resolve : String → Option UrlM) (origin : UrlM)
    (links : List (Option String × Option String)) :
    ∀ (acc : List (String × Option String)), acc.length ≤ LINK_SAMPLE_LIMIT →
      collectLinkCandidates resolve origin links acc
        = (acc ++ dedupByUrl (acc.map (·.1))
            (qualifyingLinks resolve origin links)).take LINK_SAMPLE_LIMIT := by
  induction links with
  | nil =>
    intro acc hacc
    simp only [collectLinkCandidates, qualifyingLinks, List.filterMap_nil, dedupByUrl,
      List.append_nil]
    exact (List.take_of_length_le hacc).symm
  | cons l rest ih =>
    intro acc hacc
    simp only [collectLinkCandidates]
    rw [qualifyingLinks_cons]
    by_cases hfull : LINK_SAMPLE_LIMIT ≤ acc.length
    · rw [if_pos hfull]
      have hlen : acc.length = LINK_SAMPLE_LIMIT := le_antisymm hacc hfull
      exact (List.take_left' hlen).symm
    · rw [if_neg hfull]
      have hlt : acc.length < LINK_SAMPLE_LIMIT := Nat.lt_of_not_le hfull
      cases hq : qualifyLink resolve origin l with
      | none =>
        exact ih acc hacc
      | some c =>
        simp only [dedupByUrl]
        rw [any_map_fst acc c.1]
        split_ifs with hdup
        · exact ih acc hacc
        · rw [ih (acc ++ [c]) (by simpa using hlt)]
          rw [List.append_assoc, List.singleton_append, List.map_append]
          rw [show List.map (fun x => x.1) [c] = [c.1] from rfl]
          rw [dedupByUrl_congr (qualifyingLinks resolve origin rest)
            (List.map (fun x => x.1) acc ++ [c.1]) (c.1 :: List.map (fun x => x.1) acc)
            (fun x => by simp [List.any_append, List.any_cons, Bool.or_comm])]

theorem headCheckM_url (probe : String → Option Nat) (u : String) (r : Option String) :
    (headCheckM probe u r).url = u := by
  cases hp : probe u <;> simp [headCheckM, hp]

/-- C8: the candidate list of the link sampler is exactly the first-
occurrence deduplication of the qualifying links (resolvable, same-origin,
non-excluded schemes, document order) capped at `LINK_SAMPLE_LIMIT = 50`;
its resolved URLs are pairwise distinct; the summary's `total` is the
candidate count; the checked list has exactly one entry per candidate (in
queue order in this embedding of the worker pool); and the number of
checked entries is `min(qualifying links found, 50)`. -/
theorem C8_evaluateLinkSample (resolve : String → Option UrlM) (probe : String → Option Nat)
    (origin : UrlM) (links : List (Option String × Option String)) :
    LINK_SAMPLE_LIMIT = 50
    ∧ collectLinkCandidates resolve origin links []
        = (dedupByUrl [] (qualifyingLinks resolve origin links)).take LINK_SAMPLE_LIMIT
    ∧ (collectLinkCandidates resolve origin links []).length ≤ 50
    ∧ ((collectLinkCandidates resolve origin links []).map (·.1)).Nodup
    ∧ (evaluateLinkSample resolve probe origin links).total
        = (collectLinkCandidates resolve origin links []).length
    ∧ (evaluateLinkSample resolve probe origin links).checked.map (·.url)
        = (collectLinkCandidates resolve origin links []).map (·.1)
    ∧ (evaluateLinkSample resolve probe origin links).checked.length
        = min ((dedupByUrl [] (qualifyingLinks resolve origin links)).length)
            LINK_SAMPLE_LIMIT := by
  have hspec : collectLinkCandidates resolve origin links []
      = (dedupByUrl [] (qualifyingLinks resolve origin links)).take LINK_SAMPLE_LIMIT := by
    have h := collectLinkCandidates_spec resolve origin links [] (by simp [LINK_SAMPLE_LIMIT])
    simpa using h
  refine ⟨rfl, hspec, ?_, ?_, rfl, ?_, ?_⟩
  · rw [hspec, List.length_take]
    exact min_le_left _ _
  · rw [hspec, List.map_take]
    exact List.Nodup.sublist (List.take_sublist _ _)
      (dedupByUrl_nodup (qualifyingLinks resolve origin links) []).1
  · show ((collectLinkCandidates resolve origin links []).map
        (fun c => headCheckM probe c.1 c.2)).map (·.url)
      = (collectLinkCandidates resolve origin links []).map (·.1)
    rw [List.map_map]
    exact List.map_congr_left (fun c _ => headCheckM_url probe c.1 c.2)
  · show ((collectLinkCandidates resolve origin links []).map
        (fun c => headCheckM probe c.1 c.2)).length
      = min ((dedupByUrl [] (qualifyingLinks resolve origin links)).length) LINK_SAMPLE_LIMIT
    rw [List.length_map, hspec, List.length_take, Nat.min_comm]

/-! ## C9 -/

theorem simGe_iff (a b : Nat) :
    ((92 : ℚ)/100 ≤ simHashSimilarity a b) ↔ hammingDistance a b ≤ 5 := by
  rw [simHashSimilarity_eq]
  constructor
  · intro h
    by_contra hd
    push_neg at hd
    have h6 : (6 : ℚ) ≤ (hammingDistance a b : ℚ) := by exact_mod_cast hd
    linarith
  · intro h
    have h5 : (hammingDistance a b : ℚ) ≤ 5 := by exact_mod_cast h
    linarith

theorem dupPairs_eq_natTest (fps : List Nat) : dupPairs fps = dupPairsNat fps := by
  simp only [dupPairs, dupPairsNat]
  exact congrArg (List.flatMap (List.range fps.length))
    (funext fun i =>
      congrArg (fun g => List.filterMap g (List.range' (i + 1) (fps.length - (i + 1))))
        (funext fun j => if_congr (simGe_iff _ _) rfl rfl))

theorem dupPairs_mem (fps : List Nat) (p : DupPair) :
    p ∈ dupPairs fps ↔
      (p.a < p.b ∧ p.b < fps.length
        ∧ (92 : ℚ)/100 ≤ simHashSimilarity (fps.getD p.a 0) (fps.getD p.b 0)
        ∧ p.similarity = round3 (simHashSimilarity (fps.getD p.a 0) (fps.getD p.b 0))) := by
  obtain ⟨pa, pb, ps⟩ := p
  simp only [dupPairs, List.mem_flatMap, List.mem_filterMap, List.mem_range,
    List.mem_range'_1]
  constructor
  · rintro ⟨i, hi, j, ⟨hj1, hj2⟩, hsome⟩
    by_cases hc : (92 : ℚ)/100 ≤ simHashSimilarity (fps.getD i 0) (fps.getD j 0)
    · rw [if_pos hc] at hsome
      obtain ⟨rfl, rfl, rfl⟩ := DupPair.mk.injEq .. ▸ (Option.some.inj hsome)
      exact ⟨by omega, by omega, hc, rfl⟩
    · rw [if_neg hc] at hsome
      exact absurd hsome (by simp)
  · rintro ⟨hab, hbn, hc, hsim⟩
    refine ⟨pa, by omega, pb, ⟨by omega, by omega⟩, ?_⟩
    rw [if_pos hc, hsim]

theorem detect_warnings_len (hash : String → Nat) (texts : List (Option String)) :
    (detectDuplicateContent hash texts).issues.warnings.length
      = if 3 ≤ (detectDuplicateContent hash texts).duplicates.length then 1 else 0 := by
  simp only [detectDuplicateContent]
  split_ifs <;> rfl

theorem detect_improvements_len (hash : String → Nat) (texts : List (Option String)) :
    (detectDuplicateContent hash texts).issues.improvements.length
      = if 1 ≤ (detectDuplicateContent hash texts).duplicates.length
            ∧ (detectDuplicateContent hash texts).duplicates.length ≤ 2 then 1 else 0 := by
  simp only [detectDuplicateContent]
  split_ifs <;> first | rfl | omega

/-- C9: the duplicate-content check fingerprints only the trimmed blocks of
length at least 120 (taking at most 40 of them), flags exactly the ordered
index pairs whose SimHash similarity is at least 0.92 (recording the
similarity rounded to three decimals), emits one warning-severity issue at
3 or more flagged pairs and one improvement-severity note at 1 or 2; and on
41 qualifying blocks of which blocks 0, 1, 2 are verbatim copies (all other
pairs below threshold) it reports exactly the 3 pairs (0,1), (0,2), (1,2)
at warning severity. -/
theorem C9_detectDuplicateContent :
    (∀ (hash : String → Nat) (texts : List (Option String)),
      (detectDuplicateContent hash texts).fingerprintCount
        = min ((texts.map (fun t => (t.map jsTrim).getD "")).filter
            (fun t => 120 ≤ jsLength t)).length 40
      ∧ (dupChunks texts).all (fun t => 120 ≤ jsLength t) = true
      ∧ (∀ p : DupPair, p ∈ (detectDuplicateContent hash texts).duplicates ↔
          (p.a < p.b ∧ p.b < (dupFingerprints hash texts).length
            ∧ (92 : ℚ)/100 ≤ simHashSimilarity ((dupFingerprints hash texts).getD p.a 0)
                ((dupFingerprints hash texts).getD p.b 0)
            ∧ p.similarity = round3 (simHashSimilarity
                ((dupFingerprints hash texts).getD p.a 0)
                ((dupFingerprints hash texts).getD p.b 0))))
      ∧ (detectDuplicateContent hash texts).issues.warnings.length
          = (if 3 ≤ (detectDuplicateContent hash texts).duplicates.length then 1 else 0)
      ∧ (detectDuplicateContent hash texts).issues.improvements.length
          = (if 1 ≤ (detectDuplicateContent hash texts).duplicates.length
                ∧ (detectDuplicateContent hash texts).duplicates.length ≤ 2
             then 1 else 0))
    ∧ ((detectDuplicateContent dupWitnessHash dupWitnessTexts).duplicates.length = 3
      ∧ (detectDuplicateContent dupWitnessHash dupWitnessTexts).duplicates.map
          (fun p => (p.a, p.b)) = [(0, 1), (0, 2), (1, 2)]
      ∧ (detectDuplicateContent dupWitnessHash dupWitnessTexts).issues.warnings
          = ["Multiple sections of the page appear near-identical"]
      ∧ (detectDuplicateContent dupWitnessHash dupWitnessTexts).issues.improvements = []) := by
  constructor
  · intro hash texts
    refine ⟨?_, ?_, ?_, detect_warnings_len hash texts, detect_improvements_len hash texts⟩
    · show (dupFingerprints hash texts).length = _
      simp only [dupFingerprints, List.length_map, dupChunks, List.length_take]
      exact Nat.min_comm _ _
    · rw [List.all_eq_true]
      intro x hx
      simp only [dupChunks] at hx
      have hx2 := List.mem_of_mem_take hx
      exact (List.mem_filter.mp hx2).2
    · intro p
      exact dupPairs_mem (dupFingerprints hash texts) p
  · have hfp : dupFingerprints dupWitnessHash dupWitnessTexts = [0, 0, 0, 144680345676153346, 217020518514230019, 289360691352306692, 361700864190383365, 434041037028460038, 506381209866536711, 578721382704613384, 651061555542690057, 723401728380766730, 795741901218843403, 868082074056920076, 940422246894996749, 1012762419733073422, 1085102592571150095, 1157442765409226768, 1229782938247303441, 1302123111085380114, 1374463283923456787, 1446803456761533460, 1519143629599610133, 1591483802437686806, 1663823975275763479, 1736164148113840152, 1808504320951916825, 1880844493789993498, 1953184666628070171, 2025524839466146844, 2097865012304223517, 2170205185142300190, 2242545357980376863, 2314885530818453536, 2387225703656530209, 2459565876494606882, 2531906049332683555, 2604246222170760228, 2676586395008836901, 2748926567846913574] := by
      decide
    have hlen3 : (dupPairs (dupFingerprints dupWitnessHash dupWitnessTexts)).length = 3 := by
      rw [hfp, dupPairs_eq_natTest]
      decide
    have hpairs : (dupPairs (dupFingerprints dupWitnessHash dupWitnessTexts)).map
        (fun p => (p.a, p.b)) = [(0, 1), (0, 2), (1, 2)] := by
      rw [hfp, dupPairs_eq_natTest]
      decide
    have hiss : (detectDuplicateContent dupWitnessHash dupWitnessTexts).issues
        = ⟨[], ["Multiple sections of the page appear near-identical"], []⟩ := by
      simp only [detectDuplicateContent]
      rw [if_pos (le_of_eq hlen3.symm)]
    refine ⟨hlen3, hpairs, ?_, ?_⟩
    · rw [hiss]
    · rw [hiss]
